import Mathlib

/-!
Verification of the Query Runner utility (`demo.py`).

The program is shallowly embedded as pure Lean functions:
`normalize_path` mirrors the path normalizer, and `run` mirrors `main`
as a function from an explicit world (environment variable, stdin lines,
filesystem, network oracle) to the trace of observable effects together
with the final outcome.
-/

namespace QueryRunner

/-- ASCII whitespace recognized by Python `str.strip()`. -/
def isPyWS (c : Char) : Bool :=
  c == ' ' || c == '\t' || c == '\n' || c == '\r' || c == '\x0b' || c == '\x0c'

/-- Python `s.strip()`: removes leading and trailing whitespace. -/
def pyStrip (s : String) : String :=
  String.mk (((s.data.dropWhile isPyWS).reverse.dropWhile isPyWS).reverse)

/-- Python `s.lower()` (ASCII range, which is all the program needs). -/
def pyLower (s : String) : String :=
  String.mk (s.data.map Char.toLower)

/-- Python `s[:n]`: the first `n` characters of `s`. -/
def pyTake (n : Nat) (s : String) : String :=
  String.mk (s.data.take n)

/-- Python `s.replace("\\", "/")` (single-character replacement). -/
def replaceBackslash (s : String) : String :=
  String.mk (s.data.map (fun c => if c == '\\' then '/' else c))

/-- The part of `s` before its first `':'` (`path.split(":", 1)[0]`). -/
def beforeColon (s : String) : String :=
  String.mk (s.data.takeWhile (fun c => c != ':'))

/-- The part of `s` after its first `':'` (`path.split(":", 1)[1]`). -/
def afterColon (s : String) : String :=
  String.mk ((s.data.dropWhile (fun c => c != ':')).drop 1)

/-- `normalize_path` from `demo.py`: a path containing both a colon and a
backslash is rewritten to `/mnt/<lowered drive><rest with backslashes
replaced>`; any other path is returned unchanged. -/
def normalize_path (path : String) : String :=
  if path.data.contains ':' && path.data.contains '\\' then
    "/mnt/" ++ pyLower (beforeColon path) ++ replaceBackslash (afterColon path)
  else
    path

/-- One `{role, content}` chat message. -/
structure Message where
  role : String
  content : String
deriving DecidableEq, Repr

/-- The outbound chat-completions request body built by `main`. -/
structure ChatRequest where
  model : String
  messages : List Message
  temperature : Rat
deriving DecidableEq, Repr

/-- The `message` object inside one response choice. -/
structure ChoiceMessage where
  content : String
deriving DecidableEq, Repr

/-- One completion choice of the response. -/
structure Choice where
  message : ChoiceMessage
deriving DecidableEq, Repr

/-- The chat-completions response shape the program consumes. -/
structure ChatResponse where
  choices : List Choice
deriving DecidableEq, Repr

/-- The client object constructed by `OpenAI(api_key=..., base_url=...)`. -/
structure OpenAIClient where
  api_key : String
  base_url : String
deriving DecidableEq, Repr

/-- Observable effects of a run: `promptUser s` is one `input(s)` call
(writes the text `s`, reads one stdin line), `fileOpen p` is opening and
reading the file at `p`, `printLine s` is `print(s)`, and `netCall r` is the
single chat-completions request. -/
inductive Effect where
  | promptUser : String → Effect
  | fileOpen : String → Effect
  | printLine : String → Effect
  | netCall : ChatRequest → Effect
deriving DecidableEq, Repr

/-- How the process ends: a normal return, a raised `ValueError`, an
`EOFError` from `input()` on exhausted stdin, or the `IndexError` from
`response.choices[0]` on an empty choice list. -/
inductive Outcome where
  | normal : Outcome
  | valueError : String → Outcome
  | eofError : Outcome
  | indexError : Outcome
deriving DecidableEq, Repr

/-- The world a run interacts with: the `GEMINI_API_KEY` environment
variable (`none` when unset), the pending stdin lines, the filesystem as an
association list from existing paths to their text contents, and the remote
endpoint as a response oracle. -/
structure World where
  geminiApiKey : Option String
  stdin : List String
  fs : List (String × String)
  respond : ChatRequest → ChatResponse

/-- Python truthiness of `os.getenv(...)`: `None` and `""` are falsy. -/
def truthy : Option String → Bool
  | none => false
  | some s => !(s == "")

/-- `os.path.exists` over the modeled filesystem. -/
def fsExists (fs : List (String × String)) (p : String) : Bool :=
  fs.any (fun e => e.1 == p)

/-- `open(p).read()` over the modeled filesystem (defined on existing paths). -/
def fsRead (fs : List (String × String)) (p : String) : String :=
  ((fs.find? (fun e => e.1 == p)).map Prod.snd).getD ""

def pathPromptText : String := "Enter path to your text file: "

def questionPromptText : String := "Enter your question about the document: "

def credentialErrorMsg : String := "Please set your GEMINI_API_KEY environment variable."

def sysInstruction : String := "You are a helpful assistant."

def modelName : String := "gemini-2.0-flash"

def baseUrl : String := "https://generativelanguage.googleapis.com/v1beta/openai/"

def answerHeader : String := "\n=== Answer ==="

/-- Template text of the f-string before `{content[:4000]}`. -/
def promptHead : String :=
  "\n    You are an assistant that extracts information from documents.\n    Document:\n    ---\n    "

/-- Template text between `{content[:4000]}` and `{question}`. -/
def promptMid : String := "\n    ---\n    Question: "

/-- Template text after `{question}`. -/
def promptTail : String := "\n    Provide a concise and clear answer.\n    "

/-- The f-string prompt template of `main`, embedding `content[:4000]` and
the question. -/
def buildPrompt (content question : String) : String :=
  promptHead ++ pyTake 4000 content ++ promptMid ++ question ++ promptTail

/-- The request body passed to `client.chat.completions.create`. -/
def mkRequest (p : String) : ChatRequest :=
  { model := modelName
  , messages := [ { role := "system", content := sysInstruction }
                , { role := "user", content := p } ]
  , temperature := (3 : Rat) / 10 }

/-- `normalize_path(input(...).strip())`: the path `main` actually checks. -/
def usedFilePath (line : String) : String :=
  normalize_path (pyStrip line)

/-- `input(...).strip()`: the question `main` actually embeds. -/
def usedQuestion (line : String) : String :=
  pyStrip line

/-- The whole of `main` as a pure function from the world to the ordered
trace of observable effects and the final outcome, mirroring `demo.py`
statement by statement. -/
def run (w : World) : List Effect × Outcome :=
  if truthy w.geminiApiKey then
    let _client : OpenAIClient :=
      { api_key := w.geminiApiKey.getD "", base_url := baseUrl }
    match w.stdin with
    | [] => ([Effect.promptUser pathPromptText], Outcome.eofError)
    | line1 :: rest1 =>
      let file_path := usedFilePath line1
      if fsExists w.fs file_path then
        let content := fsRead w.fs file_path
        match rest1 with
        | [] =>
          ([Effect.promptUser pathPromptText, Effect.fileOpen file_path,
            Effect.promptUser questionPromptText], Outcome.eofError)
        | line2 :: _ =>
          let question := usedQuestion line2
          let req := mkRequest (buildPrompt content question)
          match (w.respond req).choices with
          | [] =>
            ([Effect.promptUser pathPromptText, Effect.fileOpen file_path,
              Effect.promptUser questionPromptText, Effect.netCall req],
             Outcome.indexError)
          | c :: _ =>
            ([Effect.promptUser pathPromptText, Effect.fileOpen file_path,
              Effect.promptUser questionPromptText, Effect.netCall req,
              Effect.printLine answerHeader,
              Effect.printLine (pyStrip c.message.content)],
             Outcome.normal)
      else
        ([Effect.promptUser pathPromptText, Effect.printLine "File not found."],
         Outcome.normal)
  else
    ([], Outcome.valueError credentialErrorMsg)

/-- The text printed by a `print(...)` effect, `none` for other effects. -/
def printedText : Effect → Option String
  | Effect.printLine s => some s
  | _ => none

/-- The lines written by `print(...)` during a trace, in order. -/
def printedLines (es : List Effect) : List String :=
  es.filterMap printedText

/-- Joining printed lines with the newline each `print` appends. -/
def joinLines : List String → String
  | [] => ""
  | [a] => a
  | a :: rest => a ++ "\n" ++ joinLines rest

/-- Whether an effect reads a line from stdin (each `input(...)` does). -/
def isStdinRead : Effect → Bool
  | Effect.promptUser _ => true
  | _ => false

/-- Whether an effect is the outbound network request. -/
def isNetCall : Effect → Bool
  | Effect.netCall _ => true
  | _ => false

/-- A filesystem with every file's content truncated to 4000 characters. -/
def truncFs (fs : List (String × String)) : List (String × String) :=
  fs.map (fun e => (e.1, pyTake 4000 e.2))

/-- A concrete world where the run succeeds end to end. -/
def demoWorld : World :=
  { geminiApiKey := some "k"
  , stdin := ["C:\\docs\\a.txt", " What is it? "]
  , fs := [("/mnt/c/docs/a.txt", "The doc body.")]
  , respond := fun _ => { choices := [{ message := { content := "  The answer.  " } }] } }

/-- The request demoWorld's run sends. -/
def demoReq : ChatRequest :=
  mkRequest (buildPrompt "The doc body." "What is it?")

/-- A concrete world whose requested file does not exist. -/
def notFoundWorld : World :=
  { geminiApiKey := some "k"
  , stdin := ["missing.txt"]
  , fs := []
  , respond := fun _ => { choices := [] } }

/-- A concrete world with the credential variable unset. -/
def noKeyWorld : World :=
  { geminiApiKey := none
  , stdin := ["a.txt", "why?"]
  , fs := [("a.txt", "text")]
  , respond := fun _ => { choices := [] } }

/-- A concrete world with the credential set to the empty string. -/
def emptyKeyWorld : World :=
  { geminiApiKey := some ""
  , stdin := ["a.txt", "why?"]
  , fs := [("a.txt", "text")]
  , respond := fun _ => { choices := [] } }

/-! ## Helper lemmas -/

theorem dropWhile_dropWhile (p : Char → Bool) (l : List Char) :
    (l.dropWhile p).dropWhile p = l.dropWhile p := by
  induction l with
  | nil => rfl
  | cons a l ih =>
    by_cases h : p a
    · simpa [List.dropWhile_cons_of_pos h] using ih
    · simp [List.dropWhile_cons_of_neg h, h]

theorem dropWhile_eq_self_of_isPrefix (p : Char → Bool) {l m : List Char}
    (hm : m.dropWhile p = m) (h : l <+: m) : l.dropWhile p = l := by
  cases l with
  | nil => rfl
  | cons a t =>
    obtain ⟨r, hr⟩ := h
    cases hpa : p a with
    | false => simp [List.dropWhile_cons_of_neg, hpa]
    | true =>
      exfalso
      rw [← hr, List.cons_append, List.dropWhile_cons_of_pos hpa] at hm
      have hsub : List.Sublist ((t ++ r).dropWhile p) (t ++ r) := List.dropWhile_sublist p
      have hle := hsub.length_le
      rw [hm] at hle
      simp only [List.length_cons] at hle
      omega

theorem stripBack_isPrefix (p : Char → Bool) (l : List Char) :
    ((l.reverse.dropWhile p).reverse) <+: l := by
  have h : l.reverse.dropWhile p <:+ l.reverse := List.dropWhile_suffix p
  have h2 := List.reverse_prefix.mpr h
  simpa using h2

theorem data_mk (l : List Char) : (String.mk l).data = l := rfl

theorem pyStrip_idem (s : String) : pyStrip (pyStrip s) = pyStrip s := by
  have hmfix : (s.data.dropWhile isPyWS).dropWhile isPyWS = s.data.dropWhile isPyWS :=
    dropWhile_dropWhile isPyWS s.data
  have hrfix :=
    dropWhile_eq_self_of_isPrefix isPyWS hmfix
      (stripBack_isPrefix isPyWS (s.data.dropWhile isPyWS))
  unfold pyStrip
  congr 1
  rw [data_mk, hrfix, List.reverse_reverse, dropWhile_dropWhile]

theorem pyTake_pyTake (s : String) : pyTake 4000 (pyTake 4000 s) = pyTake 4000 s := by
  unfold pyTake
  simp [List.take_take]

theorem buildPrompt_pyTake (c q : String) :
    buildPrompt (pyTake 4000 c) q = buildPrompt c q := by
  unfold buildPrompt
  rw [pyTake_pyTake]

theorem fsExists_truncFs (fs : List (String × String)) (p : String) :
    fsExists (truncFs fs) p = fsExists fs p := by
  induction fs with
  | nil => rfl
  | cons e t ih =>
    simp only [fsExists, truncFs, List.map_cons, List.any_cons] at ih ⊢
    rw [ih]

theorem fsRead_truncFs (fs : List (String × String)) (p : String) :
    fsRead (truncFs fs) p = pyTake 4000 (fsRead fs p) := by
  induction fs with
  | nil => simp [fsRead, truncFs, pyTake]
  | cons e t ih =>
    by_cases h : e.1 == p
    · simp [fsRead, truncFs, List.find?, h]
    · simpa [fsRead, truncFs, List.find?, h] using ih

/-! ## Branch equations for `run` -/

theorem run_noKey (w : World) (h : truthy w.geminiApiKey = false) :
    run w = ([], Outcome.valueError credentialErrorMsg) := by
  unfold run
  rw [h]
  rfl

theorem run_emptyStdin (w : World) (hk : truthy w.geminiApiKey = true)
    (h : w.stdin = []) :
    run w = ([Effect.promptUser pathPromptText], Outcome.eofError) := by
  unfold run
  rw [hk, h]
  rfl

theorem run_notFound (w : World) (l1 : String) (r : List String)
    (hk : truthy w.geminiApiKey = true) (hstdin : w.stdin = l1 :: r)
    (hmiss : fsExists w.fs (usedFilePath l1) = false) :
    run w = ([Effect.promptUser pathPromptText, Effect.printLine "File not found."],
             Outcome.normal) := by
  unfold run
  rw [hk, hstdin]
  simp [hmiss]

theorem run_oneLine (w : World) (l1 : String)
    (hk : truthy w.geminiApiKey = true) (hstdin : w.stdin = [l1])
    (hex : fsExists w.fs (usedFilePath l1) = true) :
    run w = ([Effect.promptUser pathPromptText, Effect.fileOpen (usedFilePath l1),
              Effect.promptUser questionPromptText], Outcome.eofError) := by
  unfold run
  rw [hk, hstdin]
  simp [hex]

theorem run_emptyChoices (w : World) (l1 l2 : String) (r : List String)
    (hk : truthy w.geminiApiKey = true) (hstdin : w.stdin = l1 :: l2 :: r)
    (hex : fsExists w.fs (usedFilePath l1) = true)
    (hresp : (w.respond (mkRequest (buildPrompt (fsRead w.fs (usedFilePath l1))
        (usedQuestion l2)))).choices = []) :
    run w = ([Effect.promptUser pathPromptText, Effect.fileOpen (usedFilePath l1),
              Effect.promptUser questionPromptText,
              Effect.netCall (mkRequest (buildPrompt (fsRead w.fs (usedFilePath l1))
                (usedQuestion l2)))],
             Outcome.indexError) := by
  unfold run
  rw [hk, hstdin]
  simp [hex, hresp]

theorem run_success (w : World) (l1 l2 : String) (r : List String)
    (c : Choice) (cs : List Choice)
    (hk : truthy w.geminiApiKey = true) (hstdin : w.stdin = l1 :: l2 :: r)
    (hex : fsExists w.fs (usedFilePath l1) = true)
    (hresp : (w.respond (mkRequest (buildPrompt (fsRead w.fs (usedFilePath l1))
        (usedQuestion l2)))).choices = c :: cs) :
    run w = ([Effect.promptUser pathPromptText, Effect.fileOpen (usedFilePath l1),
              Effect.promptUser questionPromptText,
              Effect.netCall (mkRequest (buildPrompt (fsRead w.fs (usedFilePath l1))
                (usedQuestion l2))),
              Effect.printLine answerHeader,
              Effect.printLine (pyStrip c.message.content)],
             Outcome.normal) := by
  unfold run
  rw [hk, hstdin]
  simp [hex, hresp]

theorem run_stripStdin (w : World) :
    run { w with stdin := w.stdin.map pyStrip } = run w := by
  unfold run
  by_cases hk : truthy w.geminiApiKey
  · simp only [hk]
    cases w.stdin with
    | nil => rfl
    | cons l1 r1 =>
      cases r1 with
      | nil => simp [usedFilePath, usedQuestion, pyStrip_idem]
      | cons l2 r2 => simp [usedFilePath, usedQuestion, pyStrip_idem]
  · simp only [Bool.not_eq_true] at hk
    simp [hk]

theorem run_truncFs (w : World) :
    run { w with fs := truncFs w.fs } = run w := by
  unfold run
  by_cases hk : truthy w.geminiApiKey
  · simp only [hk]
    cases w.stdin with
    | nil => rfl
    | cons l1 r1 =>
      cases r1 with
      | nil => simp [fsExists_truncFs, fsRead_truncFs, buildPrompt_pyTake]
      | cons l2 r2 => simp [fsExists_truncFs, fsRead_truncFs, buildPrompt_pyTake]
  · simp only [Bool.not_eq_true] at hk
    simp [hk]

/-! ## Claims -/

/-- Claim C1 counterexample: the input "AB:\x" contains both a colon and a
backslash, and the single character preceding its first colon is 'B', whose
lower-case is 'b'; the claimed output would therefore start with
"/mnt/b/x", but `normalize_path` lower-cases the whole prefix "AB" and
returns "/mnt/ab/x", which does not start with "/mnt/b/x". -/
theorem c1_counterexample :
    ("AB:\\x".data.contains ':' = true) ∧
    ("AB:\\x".data.contains '\\' = true) ∧
    (beforeColon "AB:\\x").data.getLast? = some 'B' ∧
    ("/mnt/" ++ String.mk [Char.toLower 'B'] ++ replaceBackslash (afterColon "AB:\\x")
      = "/mnt/b/x") ∧
    normalize_path "AB:\\x" = "/mnt/ab/x" ∧
    ("/mnt/b/x".data.isPrefixOf (normalize_path "AB:\\x").data) = false := by
  decide

/-- Claim C1 (amended): for every input string containing both a colon and
a backslash, `normalize_path` returns "/mnt/" followed by the lower-cased
entire prefix of the input before the first colon, followed by the
remainder of the input (the part after the first colon) with every
backslash replaced by a forward slash. -/
theorem c1_drive_rewrite (s : String)
    (hc : s.data.contains ':' = true) (hb : s.data.contains '\\' = true) :
    normalize_path s =
      "/mnt/" ++ pyLower (beforeColon s) ++ replaceBackslash (afterColon s) := by
  unfold normalize_path
  rw [hc, hb]
  rfl

/-- Claim C1 witness: the amended statement evaluated on the spec's own
example path. -/
theorem c1_drive_rewrite_witness :
    ("C:\\Users\\x\\doc.txt".data.contains ':' = true) ∧
    ("C:\\Users\\x\\doc.txt".data.contains '\\' = true) ∧
    normalize_path "C:\\Users\\x\\doc.txt" = "/mnt/c/Users/x/doc.txt" := by
  refine ⟨by decide, by decide, ?_⟩
  rw [c1_drive_rewrite "C:\\Users\\x\\doc.txt" (by decide) (by decide)]
  decide

/-- Claim C2: the assembled prompt embeds exactly the first 4000 characters
of the document (the whole document when it is at most 4000 characters
long), and the entire run — in particular the outbound request — is
unchanged when every file's content is truncated to its first 4000
characters, so characters at index 4000 and beyond never influence the
request. -/
theorem c2_truncation :
    (∀ c q : String, buildPrompt c q =
        promptHead ++ pyTake 4000 c ++ promptMid ++ q ++ promptTail) ∧
    (∀ c : String, c.data.length ≤ 4000 → pyTake 4000 c = c) ∧
    (∀ w : World, run { w with fs := truncFs w.fs } = run w) := by
  refine ⟨fun c q => rfl, fun c hc => ?_, run_truncFs⟩
  unfold pyTake
  rw [List.take_of_length_le hc]

/-- Claim C2 witness: a short document is embedded whole. -/
theorem c2_truncation_witness :
    ("abc".data.length ≤ 4000) ∧ pyTake 4000 "abc" = "abc" :=
  ⟨by decide, c2_truncation.2.1 "abc" (by decide)⟩

/-- Claim C3: when the normalized stripped path does not exist, the run's
trace is exactly the path prompt followed by the line "File not found.",
so the only printed line is "File not found.", no network call occurs, and
the outcome is a normal return. -/
theorem c3_file_not_found (w : World) (l1 : String) (r : List String)
    (hstdin : w.stdin = l1 :: r)
    (hkey : truthy w.geminiApiKey = true)
    (hmiss : fsExists w.fs (usedFilePath l1) = false) :
    (run w).1 = [Effect.promptUser pathPromptText, Effect.printLine "File not found."] ∧
    printedLines (run w).1 = ["File not found."] ∧
    (∀ req, Effect.netCall req ∉ (run w).1) ∧
    (run w).2 = Outcome.normal := by
  rw [run_notFound w l1 r hkey hstdin hmiss]
  refine ⟨rfl, rfl, ?_, rfl⟩
  intro req hmem
  simp [pathPromptText] at hmem

/-- Claim C3 witness: the not-found behavior on a concrete world. -/
theorem c3_file_not_found_witness :
    notFoundWorld.stdin = "missing.txt" :: [] ∧
    truthy notFoundWorld.geminiApiKey = true ∧
    fsExists notFoundWorld.fs (usedFilePath "missing.txt") = false ∧
    (run notFoundWorld).1
      = [Effect.promptUser pathPromptText, Effect.printLine "File not found."] ∧
    (run notFoundWorld).2 = Outcome.normal := by
  have h := c3_file_not_found notFoundWorld "missing.txt" [] rfl (by decide) (by decide)
  exact ⟨rfl, by decide, by decide, h.1, h.2.2.2⟩

/-- Claim C4: with the credential variable unset the run raises the
`ValueError` carrying the descriptive message, and its effect trace is
empty — no stdin prompt was shown, no file was opened, and no network call
was made. -/
theorem c4_missing_credential (w : World) (h : w.geminiApiKey = none) :
    run w = ([], Outcome.valueError credentialErrorMsg) := by
  unfold run
  rw [h]
  rfl

/-- Claim C4 witness: the missing-credential behavior on a concrete world. -/
theorem c4_missing_credential_witness :
    noKeyWorld.geminiApiKey = none ∧
    run noKeyWorld = ([], Outcome.valueError credentialErrorMsg) :=
  ⟨rfl, c4_missing_credential noKeyWorld rfl⟩

/-- Claim C5: on a successful run whose response's first choice's message
content is some answer string, the printed lines are exactly the header
"\n=== Answer ===" followed by the whitespace-stripped answer, their join
is "\n=== Answer ===\n" followed by the stripped answer, and the run ends
normally. -/
theorem c5_answer_output (w : World) (l1 l2 : String) (r : List String)
    (c : Choice) (cs : List Choice)
    (hstdin : w.stdin = l1 :: l2 :: r)
    (hkey : truthy w.geminiApiKey = true)
    (hex : fsExists w.fs (usedFilePath l1) = true)
    (hresp : (w.respond (mkRequest (buildPrompt (fsRead w.fs (usedFilePath l1))
        (usedQuestion l2)))).choices = c :: cs) :
    printedLines (run w).1 = [answerHeader, pyStrip c.message.content] ∧
    joinLines (printedLines (run w).1)
      = "\n=== Answer ===\n" ++ pyStrip c.message.content ∧
    (run w).2 = Outcome.normal := by
  rw [run_success w l1 l2 r c cs hkey hstdin hex hresp]
  refine ⟨rfl, ?_, rfl⟩
  show joinLines [answerHeader, pyStrip c.message.content] = _
  show answerHeader ++ "\n" ++ pyStrip c.message.content = _
  have hcat : answerHeader ++ "\n" = "\n=== Answer ===\n" := by decide
  rw [hcat]

/-- Claim C5 witness: the success-path output on a concrete world. -/
theorem c5_answer_output_witness :
    truthy demoWorld.geminiApiKey = true ∧
    fsExists demoWorld.fs (usedFilePath "C:\\docs\\a.txt") = true ∧
    printedLines (run demoWorld).1 = [answerHeader, pyStrip "  The answer.  "] ∧
    joinLines (printedLines (run demoWorld).1)
      = "\n=== Answer ===\n" ++ pyStrip "  The answer.  " := by
  have h := c5_answer_output demoWorld "C:\\docs\\a.txt" " What is it? " []
    { message := { content := "  The answer.  " } } [] rfl (by decide) (by decide) rfl
  exact ⟨by decide, by decide, h.1, h.2.1⟩

/-- Claim C6: for every input lacking a colon or lacking a backslash,
`normalize_path` returns its input unchanged. -/
theorem c6_identity (s : String)
    (h : s.data.contains ':' = false ∨ s.data.contains '\\' = false) :
    normalize_path s = s := by
  unfold normalize_path
  rcases h with h | h
  · rw [h, Bool.false_and]
    rfl
  · rw [h, Bool.and_false]
    rfl

/-- Claim C6 witness: the identity on the spec's own POSIX example path. -/
theorem c6_identity_witness :
    ("/home/user/doc.txt".data.contains ':' = false) ∧
    normalize_path "/home/user/doc.txt" = "/home/user/doc.txt" :=
  ⟨by decide, c6_identity "/home/user/doc.txt" (Or.inl (by decide))⟩

/-- Claim C7: every outbound request of any run carries the fixed model
identifier "gemini-2.0-flash", the fixed sampling temperature 3/10, and
exactly two messages in order — the fixed system instruction, then the
prompt assembled from the stripped stdin lines as the user message. -/
theorem c7_request_shape (w : World) (req : ChatRequest)
    (h : Effect.netCall req ∈ (run w).1) :
    req.model = "gemini-2.0-flash" ∧
    req.temperature = (3 : Rat) / 10 ∧
    (∃ l1 l2 r, w.stdin = l1 :: l2 :: r ∧
      req.messages =
        [ { role := "system", content := "You are a helpful assistant." }
        , { role := "user"
          , content := buildPrompt (fsRead w.fs (usedFilePath l1)) (usedQuestion l2) } ]) := by
  by_cases hk : truthy w.geminiApiKey
  case neg =>
    rw [run_noKey w (by simpa using hk)] at h
    simp at h
  cases hstdin : w.stdin with
  | nil =>
    rw [run_emptyStdin w hk hstdin] at h
    simp [pathPromptText] at h
  | cons l1 r1 =>
    by_cases hex : fsExists w.fs (usedFilePath l1)
    case neg =>
      rw [run_notFound w l1 r1 hk hstdin (by simpa using hex)] at h
      simp [pathPromptText] at h
    cases r1 with
    | nil =>
      rw [run_oneLine w l1 hk hstdin hex] at h
      simp [pathPromptText, questionPromptText] at h
    | cons l2 r2 =>
      cases hresp : (w.respond (mkRequest (buildPrompt (fsRead w.fs (usedFilePath l1))
          (usedQuestion l2)))).choices with
      | nil =>
        rw [run_emptyChoices w l1 l2 r2 hk hstdin hex hresp] at h
        simp [pathPromptText, questionPromptText] at h
        exact ⟨by rw [h]; rfl, by rw [h]; rfl, l1, l2, r2, rfl, by rw [h]; rfl⟩
      | cons c cs =>
        rw [run_success w l1 l2 r2 c cs hk hstdin hex hresp] at h
        simp [pathPromptText, questionPromptText, answerHeader] at h
        exact ⟨by rw [h]; rfl, by rw [h]; rfl, l1, l2, r2, rfl, by rw [h]; rfl⟩

/-- Claim C7 witness: the request shape on a concrete successful run. -/
theorem c7_request_shape_witness :
    (Effect.netCall demoReq ∈ (run demoWorld).1) ∧
    demoReq.model = "gemini-2.0-flash" ∧
    demoReq.temperature = (3 : Rat) / 10 :=
  have htr : (run demoWorld).1
      = [Effect.promptUser pathPromptText, Effect.fileOpen "/mnt/c/docs/a.txt",
         Effect.promptUser questionPromptText, Effect.netCall demoReq,
         Effect.printLine answerHeader, Effect.printLine "The answer."] := rfl
  have hmem : Effect.netCall demoReq ∈ (run demoWorld).1 := by
    rw [htr]
    exact List.mem_cons_of_mem _ (List.mem_cons_of_mem _ (List.mem_cons_of_mem _
      (List.mem_cons_self _ _)))
  ⟨hmem,
   (c7_request_shape demoWorld demoReq hmem).1,
   (c7_request_shape demoWorld demoReq hmem).2.1⟩

/-- Claim C8: the run is invariant under pre-stripping every stdin line
(both inputs are stripped before use, and stripping is idempotent), the
path the program checks is the normalization of the already-stripped first
line, and the question it embeds is the stripped second line. -/
theorem c8_inputs_stripped :
    (∀ w : World, run { w with stdin := w.stdin.map pyStrip } = run w) ∧
    (∀ l : String, usedFilePath l = normalize_path (pyStrip l)) ∧
    (∀ l : String, usedQuestion l = pyStrip l) :=
  ⟨run_stripStdin, fun _ => rfl, fun _ => rfl⟩

/-- Claim C9: a credential that is present but empty behaves exactly like
an absent credential — the run is the same as with the variable unset, and
it raises the fatal configuration `ValueError` with an empty effect trace. -/
theorem c9_empty_credential (w : World) (h : w.geminiApiKey = some "") :
    run w = run { w with geminiApiKey := none } ∧
    run w = ([], Outcome.valueError credentialErrorMsg) := by
  have h1 : run w = ([], Outcome.valueError credentialErrorMsg) := by
    unfold run
    rw [h]
    rfl
  have h2 : run { w with geminiApiKey := none }
      = ([], Outcome.valueError credentialErrorMsg) := by
    unfold run
    rfl
  exact ⟨h1.trans h2.symm, h1⟩

/-- Claim C9 witness: the empty-credential behavior on a concrete world. -/
theorem c9_empty_credential_witness :
    emptyKeyWorld.geminiApiKey = some "" ∧
    run emptyKeyWorld = ([], Outcome.valueError credentialErrorMsg) :=
  ⟨rfl, (c9_empty_credential emptyKeyWorld rfl).2⟩

/-- Claim C10: on the file-not-found path stdin is read exactly once (one
`input` effect in the whole trace), and the question prompt appears in a
trace only when the first stdin line was present and its normalized
stripped form exists on the filesystem. -/
theorem c10_question_only_after_found :
    (∀ (w : World) (l1 : String) (r : List String),
      w.stdin = l1 :: r → truthy w.geminiApiKey = true →
      fsExists w.fs (usedFilePath l1) = false →
      (run w).1.countP isStdinRead = 1) ∧
    (∀ w : World, Effect.promptUser questionPromptText ∈ (run w).1 →
      ∃ l1 r, w.stdin = l1 :: r ∧ fsExists w.fs (usedFilePath l1) = true) := by
  constructor
  · intro w l1 r hstdin hk hmiss
    rw [run_notFound w l1 r hk hstdin hmiss]
    rfl
  · intro w h
    by_cases hk : truthy w.geminiApiKey
    case neg =>
      rw [run_noKey w (by simpa using hk)] at h
      simp at h
    cases hstdin : w.stdin with
    | nil =>
      rw [run_emptyStdin w hk hstdin] at h
      simp [questionPromptText, pathPromptText] at h
    | cons l1 r1 =>
      by_cases hex : fsExists w.fs (usedFilePath l1)
      case pos => exact ⟨l1, r1, rfl, hex⟩
      rw [run_notFound w l1 r1 hk hstdin (by simpa using hex)] at h
      simp [questionPromptText, pathPromptText] at h

/-- Claim C10 witness: exactly one stdin read on a concrete not-found run. -/
theorem c10_question_only_after_found_witness :
    notFoundWorld.stdin = "missing.txt" :: [] ∧
    truthy notFoundWorld.geminiApiKey = true ∧
    fsExists notFoundWorld.fs (usedFilePath "missing.txt") = false ∧
    (run notFoundWorld).1.countP isStdinRead = 1 :=
  ⟨rfl, by decide, by decide,
   c10_question_only_after_found.1 notFoundWorld "missing.txt" [] rfl (by decide) (by decide)⟩

end QueryRunner
